import Mathlib

/-!
Shallow embedding of the `is-railway` library (src/index.ts).

The library is a set of pure, synchronous functions over strings:
a host matcher (`isRailwayHost`), an environment scanner (`isRailway`,
`getRailwayDetection`), a PostgreSQL connection configurator
(`getPostgresConfig`) and a config aggregator (`getRailwayConfig`).

The ambient process environment is modelled as a function
`Env := String → Option String` (a variable name maps to its value, or
`none` when unset).  The host runtime's WHATWG URL parser is not code of
this repository; it is modelled abstractly as a function
`URLParser := String → Option String` returning the parsed hostname on
success and `none` on parse failure, and every theorem is universally
quantified over it.  JavaScript string builtins used by the source
(`trim`, `toLowerCase`, `includes`) are modelled structurally over
`List Char` so that all definitions kernel-evaluate on concrete inputs.

Logging (`LogEngine.warn` / `LogEngine.info`) is modelled by returning
the list of emitted log events alongside the result; throwing
(`throw new Error(...)`) is modelled with `Except`.
-/

namespace IsRailway

/-! ## Models of the JavaScript string builtins used by the source -/

/-- Model of one step of substring search: does `pat` occur at the head
of `s`?  (Both strings as character lists.) -/
def headMatch : List Char → List Char → Bool
  | [], _ => true
  | _ :: _, [] => false
  | a :: as, b :: bs => a == b && headMatch as bs

/-- Substring occurrence over character lists: `pat` occurs somewhere in
`s`. -/
def occurs (pat : List Char) : List Char → Bool
  | [] => pat.isEmpty
  | s@(_ :: rest) => headMatch pat s || occurs pat rest

namespace JSStr

/-- Model of JavaScript `s.includes(pat)`. -/
def includes (s pat : String) : Bool :=
  occurs pat.data s.data

/-- Model of JavaScript `s.toLowerCase()` (ASCII-level, which is all the
source needs: hostnames). -/
def toLower (s : String) : String :=
  ⟨s.data.map Char.toLower⟩

/-- Model of JavaScript `s.trim()`: strip leading and trailing
whitespace. -/
def trim (s : String) : String :=
  ⟨((s.data.dropWhile Char.isWhitespace).reverse.dropWhile Char.isWhitespace).reverse⟩

end JSStr

/-! ## Data model (src/types.ts) -/

/-- The host runtime's URL parser, abstractly: hostname on success. -/
abbrev URLParser := String → Option String

/-- The process environment: variable name to value. -/
abbrev Env := String → Option String

/-- SSL part of `PostgresConfig` (src/types.ts). -/
structure PostgresSSLConfig where
  rejectUnauthorized : Bool
  ca : Option String
deriving DecidableEq, Repr

/-- `PostgresConfig` (src/types.ts). -/
structure PostgresConfig where
  connectionString : String
  ssl : PostgresSSLConfig
  modified : Bool
deriving DecidableEq, Repr

/-- `PostgresConfigOptions` (src/types.ts): all fields optional. -/
structure PostgresConfigOptions where
  rejectUnauthorized : Option Bool
  ca : Option String
  forceSSL : Option Bool
  enableLogging : Option Bool
deriving DecidableEq, Repr

/-- `RailwayDetectionResult` (src/types.ts). -/
structure RailwayDetectionResult where
  isRailway : Bool
  detectedVars : List String
  railwayHosts : List String
deriving DecidableEq, Repr

/-- A log event emitted through the logging collaborator. -/
inductive LogEvent where
  | warn (message : String)
  | info (message : String)
deriving DecidableEq, Repr

/-- The one error kind: `throw new Error('Connection string is required')`. -/
inductive ConfigError where
  | invalidArgument (message : String)
deriving DecidableEq, Repr

/-! ## src/index.ts -/

/-- `RAILWAY_ENV_VARS` (src/index.ts): the fixed, ordered list of
environment variables scanned for railway.internal hostnames. -/
def RAILWAY_ENV_VARS : List String :=
  ["DATABASE_URL",
   "POSTGRES_URL",
   "POSTGRESQL_URL",
   "REDIS_URL",
   "PLATFORM_REDIS_URL",
   "WEBHOOK_REDIS_URL",
   "MONGODB_URL",
   "MYSQL_URL"]

/-- `isRailwayHost` (src/index.ts): false on absent or blank input,
false when the URL fails to parse, else true iff the lower-cased
hostname contains the substring "railway.internal". -/
def isRailwayHost (parse : URLParser) (url : Option String) : Bool :=
  match url with
  | none => false
  | some u =>
    if u = "" ∨ JSStr.trim u = "" then false
    else
      match parse u with
      | none => false
      | some hostname => JSStr.includes (JSStr.toLower hostname) "railway.internal"

/-- `isRailway` (src/index.ts): boolean-only detection,
`RAILWAY_ENV_VARS.some(envVar => isRailwayHost(process.env[envVar]))`. -/
def isRailway (parse : URLParser) (env : Env) : Bool :=
  RAILWAY_ENV_VARS.any fun envVar => isRailwayHost parse (env envVar)

/-- One iteration of the `forEach` loop in `getRailwayDetection`
(src/index.ts): the accumulator is the pair
(detectedVars, railwayHosts). -/
def detectionStep (parse : URLParser) (env : Env)
    (acc : List String × List String) (envVar : String) :
    List String × List String :=
  if isRailwayHost parse (env envVar) then
    let detectedVars := acc.1 ++ [envVar]
    match (env envVar).bind parse with
    | some hostname =>
      if hostname ∈ acc.2 then (detectedVars, acc.2)
      else (detectedVars, acc.2 ++ [hostname])
    | none => (detectedVars, acc.2)
  else acc

/-- `getRailwayDetection` (src/index.ts). -/
def getRailwayDetection (parse : URLParser) (env : Env) : RailwayDetectionResult :=
  let acc := RAILWAY_ENV_VARS.foldl (detectionStep parse env) ([], [])
  { isRailway := decide (0 < acc.1.length)
    detectedVars := acc.1
    railwayHosts := acc.2 }

/-- `getPostgresConfig` (src/index.ts).  The connection string is
`Option String` so that the absent (`undefined`) argument of the spec is
representable; `none` and `some ""` are both falsy in the source's
`if (!connectionString)` guard.  Returns the config together with the
list of emitted log events, or the thrown error. -/
def getPostgresConfig (parse : URLParser) (env : Env)
    (connectionString : Option String) (options : PostgresConfigOptions) :
    Except ConfigError (PostgresConfig × List LogEvent) :=
  match connectionString with
  | none => .error (.invalidArgument "Connection string is required")
  | some cs =>
    if cs = "" then .error (.invalidArgument "Connection string is required")
    else
      let rejectUnauthorized := options.rejectUnauthorized.getD false
      let ca := options.ca
      let forceSSL := options.forceSSL.getD false
      let enableLogging := options.enableLogging.getD true
      let config0 : PostgresConfig :=
        { connectionString := cs
          ssl := { rejectUnauthorized := rejectUnauthorized, ca := ca }
          modified := false }
      let step1 : PostgresConfig × List LogEvent :=
        if isRailway parse env then
          let logs :=
            if rejectUnauthorized && enableLogging then
              [LogEvent.warn "Railway detected: Overriding rejectUnauthorized=true to false for Railway compatibility"]
            else []
          ({ config0 with
              ssl := { config0.ssl with rejectUnauthorized := false }
              modified := true }, logs)
        else (config0, [])
      let step2 : PostgresConfig × List LogEvent :=
        if !forceSSL && !(isRailway parse env) && !(JSStr.includes cs "sslmode=") then
          let separator := if JSStr.includes cs "?" then "&" else "?"
          let logs := step1.2 ++
            (if enableLogging then
              [LogEvent.info "Local environment detected: Added sslmode=disable for optimal PostgreSQL performance"]
            else [])
          ({ step1.1 with
              connectionString := cs ++ separator ++ "sslmode=disable"
              modified := true }, logs)
        else step1
      .ok step2

/-- SSL part of the aggregated config (`getRailwayConfig`'s result). -/
structure RailwaySSLConfig where
  enabled : Bool
  rejectUnauthorized : Bool
  validateCertificate : Bool
deriving DecidableEq, Repr

/-- The aggregated config returned by `getRailwayConfig`. -/
structure RailwayConfig where
  isRailway : Bool
  ssl : RailwaySSLConfig
  environment : String
  detectedServices : List String
  hosts : List String
deriving DecidableEq, Repr

/-- `getRailwayConfig` (src/index.ts): projection of one
`getRailwayDetection` result. -/
def getRailwayConfig (parse : URLParser) (env : Env) : RailwayConfig :=
  let detection := getRailwayDetection parse env
  { isRailway := detection.isRailway
    ssl :=
      { enabled := detection.isRailway
        rejectUnauthorized := false
        validateCertificate := false }
    environment := if detection.isRailway then "railway" else "local"
    detectedServices := detection.detectedVars
    hosts := detection.railwayHosts }

/-! ## Spec-side reference definitions -/

/-- Insert a hostname at the end unless already present (the de-dup step
the scanner performs on `railwayHosts`). -/
def insertIfAbsent (acc : List String) (x : String) : List String :=
  if x ∈ acc then acc else acc ++ [x]

/-- Keep-first-occurrence de-duplication, as the spec words it:
"appending to platformHosts only if not already present (order of first
occurrence)". -/
def dedupFirst (l : List String) : List String :=
  l.foldl insertIfAbsent []

/-- The hostnames of the detected variables, in scan order, one per
detected variable whose value re-parses. -/
def detectedHostnames (parse : URLParser) (env : Env) : List String :=
  (RAILWAY_ENV_VARS.filter fun v => isRailwayHost parse (env v)).filterMap
    fun v => (env v).bind parse

/-! ## Concrete test fixtures (used by witnesses) -/

/-- A concrete URL parser fixture: hostnames for the handful of URLs the
witnesses use, parse failure otherwise. -/
def testParse : URLParser := fun s =>
  if s = "postgres://user:pw@Pg.Railway.Internal:5432/app" then some "Pg.Railway.Internal"
  else if s = "redis://user:pw@redis.railway.internal:6379" then some "redis.railway.internal"
  else if s = "postgres://localhost:5432/db" then some "localhost"
  else none

/-- A concrete environment fixture in which Railway is detected. -/
def testEnv : Env := fun v =>
  if v = "DATABASE_URL" then some "postgres://user:pw@Pg.Railway.Internal:5432/app"
  else if v = "REDIS_URL" then some "redis://user:pw@redis.railway.internal:6379"
  else none

/-- The empty environment: nothing set, Railway not detected. -/
def emptyEnv : Env := fun _ => none

end IsRailway

namespace IsRailway

/-! ## Helper lemmas -/

/-- A detection step appends the variable name to `detectedVars` exactly
when the host matcher accepts its value. -/
theorem detectionStep_fst (parse : URLParser) (env : Env)
    (acc : List String × List String) (envVar : String) :
    (detectionStep parse env acc envVar).1 =
      if isRailwayHost parse (env envVar) then acc.1 ++ [envVar] else acc.1 := by
  unfold detectionStep
  by_cases h : isRailwayHost parse (env envVar)
  · simp only [h, if_true]
    rcases hb : (env envVar).bind parse with _ | hostname
    · rfl
    · by_cases hm : hostname ∈ acc.2 <;> simp [hm]
  · simp [h]

/-- A detection step updates `railwayHosts` by `insertIfAbsent` with the
re-parsed hostname when the variable is detected and re-parsing
succeeds, and leaves it alone otherwise. -/
theorem detectionStep_snd (parse : URLParser) (env : Env)
    (acc : List String × List String) (envVar : String) :
    (detectionStep parse env acc envVar).2 =
      if isRailwayHost parse (env envVar) then
        match (env envVar).bind parse with
        | some hostname => insertIfAbsent acc.2 hostname
        | none => acc.2
      else acc.2 := by
  unfold detectionStep insertIfAbsent
  by_cases h : isRailwayHost parse (env envVar)
  · simp only [h, if_true]
    rcases hb : (env envVar).bind parse with _ | hostname
    · rfl
    · by_cases hm : hostname ∈ acc.2 <;> simp [hm]
  · simp [h]

/-- The scanner's fold accumulates in `detectedVars` exactly the filter
of the scanned list by the host matcher, appended to the starting
accumulator. -/
theorem foldl_detectionStep_fst (parse : URLParser) (env : Env)
    (vars : List String) :
    ∀ acc : List String × List String,
      (vars.foldl (detectionStep parse env) acc).1 =
        acc.1 ++ vars.filter fun v => isRailwayHost parse (env v) := by
  induction vars with
  | nil => intro acc; simp
  | cons v vs ih =>
    intro acc
    rw [List.foldl_cons, ih, detectionStep_fst, List.filter_cons]
    by_cases h : isRailwayHost parse (env v) <;> simp [h]

/-- The scanner's fold accumulates in `railwayHosts` the fold of
`insertIfAbsent` over the hostnames of the detected variables. -/
theorem foldl_detectionStep_snd (parse : URLParser) (env : Env)
    (vars : List String) :
    ∀ acc : List String × List String,
      (vars.foldl (detectionStep parse env) acc).2 =
        ((vars.filter fun v => isRailwayHost parse (env v)).filterMap
          fun v => (env v).bind parse).foldl insertIfAbsent acc.2 := by
  induction vars with
  | nil => intro acc; simp
  | cons v vs ih =>
    intro acc
    rw [List.foldl_cons, ih, detectionStep_snd, List.filter_cons]
    by_cases h : isRailwayHost parse (env v)
    · simp only [h, if_true]
      rcases hb : (env v).bind parse with _ | hostname
      · simp [List.filterMap_cons, hb]
      · simp [List.filterMap_cons, hb]
    · simp [h]

/-- Membership in an `insertIfAbsent` fold: an element is there iff it
was in the accumulator or in the inserted list. -/
theorem mem_foldl_insertIfAbsent (x : String) (l : List String) :
    ∀ acc : List String, x ∈ l.foldl insertIfAbsent acc ↔ x ∈ acc ∨ x ∈ l := by
  induction l with
  | nil => intro acc; simp
  | cons y l ih =>
    intro acc
    rw [List.foldl_cons, ih]
    unfold insertIfAbsent
    by_cases h : y ∈ acc
    · simp only [h, if_true, List.mem_cons]
      constructor
      · rintro (h1 | h2)
        · exact Or.inl h1
        · exact Or.inr (Or.inr h2)
      · rintro (h1 | rfl | h2)
        · exact Or.inl h1
        · exact Or.inl h
        · exact Or.inr h2
    · simp only [h, if_false, List.mem_append, List.mem_singleton, List.mem_cons]
      tauto

/-- An `insertIfAbsent` fold preserves `Nodup`. -/
theorem nodup_foldl_insertIfAbsent (l : List String) :
    ∀ acc : List String, acc.Nodup → (l.foldl insertIfAbsent acc).Nodup := by
  induction l with
  | nil => intro acc h; simpa using h
  | cons y l ih =>
    intro acc h
    rw [List.foldl_cons]
    apply ih
    unfold insertIfAbsent
    by_cases hy : y ∈ acc
    · simpa [hy] using h
    · rw [if_neg hy, List.nodup_append]
      exact ⟨h, List.nodup_singleton y, by simpa [List.disjoint_singleton] using hy⟩

/-- An `insertIfAbsent` fold is empty only when both the accumulator and
the inserted list are empty. -/
theorem foldl_insertIfAbsent_eq_nil (l : List String) :
    ∀ acc : List String, l.foldl insertIfAbsent acc = [] ↔ acc = [] ∧ l = [] := by
  induction l with
  | nil => intro acc; simp
  | cons y l ih =>
    intro acc
    rw [List.foldl_cons, ih]
    unfold insertIfAbsent
    by_cases hy : y ∈ acc
    · simp only [hy, if_true]
      constructor
      · rintro ⟨rfl, -⟩; simp at hy
      · rintro ⟨-, h⟩; simp at h
    · simp only [hy, if_false]
      constructor
      · rintro ⟨h, -⟩; simp at h
      · rintro ⟨-, h⟩; simp at h

/-- When the host matcher accepts a value, that value is present and the
URL parser succeeds on it. -/
theorem isRailwayHost_parse_some (parse : URLParser) (o : Option String)
    (h : isRailwayHost parse o = true) :
    ∃ u hostname, o = some u ∧ parse u = some hostname := by
  cases o with
  | none => simp [isRailwayHost] at h
  | some u =>
    simp only [isRailwayHost] at h
    by_cases hblank : u = "" ∨ JSStr.trim u = ""
    · rw [if_pos hblank] at h; simp at h
    · rw [if_neg hblank] at h
      rcases hp : parse u with _ | hostname
      · rw [hp] at h; simp at h
      · exact ⟨u, hostname, rfl, hp⟩

/-- The scanner's `detectedVars` is the filter of the canonical variable
list by the host matcher. -/
theorem detectedVars_eq (parse : URLParser) (env : Env) :
    (getRailwayDetection parse env).detectedVars =
      RAILWAY_ENV_VARS.filter fun v => isRailwayHost parse (env v) := by
  unfold getRailwayDetection
  simpa using foldl_detectionStep_fst parse env RAILWAY_ENV_VARS ([], [])

/-- The scanner's `railwayHosts` is the keep-first de-duplication of the
detected hostnames. -/
theorem railwayHosts_eq (parse : URLParser) (env : Env) :
    (getRailwayDetection parse env).railwayHosts =
      dedupFirst (detectedHostnames parse env) := by
  unfold getRailwayDetection dedupFirst detectedHostnames
  simpa using foldl_detectionStep_snd parse env RAILWAY_ENV_VARS ([], [])

/-- The scanner's boolean field is the emptiness test of its
`detectedVars` field. -/
theorem isRailway_field_eq (parse : URLParser) (env : Env) :
    (getRailwayDetection parse env).isRailway =
      decide (0 < (getRailwayDetection parse env).detectedVars.length) := by
  unfold getRailwayDetection
  simp

end IsRailway

namespace IsRailway

/-! ## Further helper lemmas -/

/-- Short-circuiting `any` agrees with the emptiness test of `filter`. -/
theorem any_eq_decide_filter_length (p : String → Bool) (l : List String) :
    l.any p = decide (0 < (l.filter p).length) := by
  induction l with
  | nil => rfl
  | cons x l ih =>
    rw [List.any_cons, List.filter_cons]
    by_cases h : p x
    · simp [h]
    · simp [h, ih]

/-! ## Claim theorems -/

/-- Claim C2: `isRailwayHost` is total and never raises: it returns false on
an absent input, false on an input that is blank after trimming, false when
the URL parser fails on the input, and otherwise returns true iff the
lower-cased hostname of the parsed URL contains the substring
"railway.internal" (so matching is case-insensitive in the hostname). -/
theorem isRailwayHost_total_spec (parse : URLParser) (url : Option String) :
    (url = none → isRailwayHost parse url = false)
    ∧ (∀ u, url = some u → JSStr.trim u = "" → isRailwayHost parse url = false)
    ∧ (∀ u, url = some u → parse u = none → isRailwayHost parse url = false)
    ∧ (∀ u hostname, url = some u → JSStr.trim u ≠ "" → parse u = some hostname →
        (isRailwayHost parse url = true ↔
          JSStr.includes (JSStr.toLower hostname) "railway.internal" = true)) := by
  refine ⟨?_, ?_, ?_, ?_⟩
  · rintro rfl; rfl
  · rintro u rfl htrim
    simp only [isRailwayHost]
    rw [if_pos (Or.inr htrim)]
  · rintro u rfl hp
    simp only [isRailwayHost]
    by_cases hblank : u = "" ∨ JSStr.trim u = ""
    · rw [if_pos hblank]
    · rw [if_neg hblank, hp]
  · rintro u hostname rfl htrim hp
    simp only [isRailwayHost]
    have hne : ¬(u = "" ∨ JSStr.trim u = "") := by
      rintro (rfl | h)
      · exact htrim rfl
      · exact htrim h
    rw [if_neg hne, hp]

/-- Witness for C2: a concrete mixed-case railway URL is accepted. -/
theorem isRailwayHost_total_spec_witness :
    isRailwayHost testParse (some "postgres://user:pw@Pg.Railway.Internal:5432/app") = true :=
  ((isRailwayHost_total_spec testParse
      (some "postgres://user:pw@Pg.Railway.Internal:5432/app")).2.2.2
    "postgres://user:pw@Pg.Railway.Internal:5432/app" "Pg.Railway.Internal"
    rfl (by decide) (by decide)).mpr (by decide)

/-- Claim C5: the `isRailway` field of the scanner's result is true iff its
`detectedVars` field is non-empty. -/
theorem getRailwayDetection_isRailway_iff_detected (parse : URLParser) (env : Env) :
    (getRailwayDetection parse env).isRailway = true ↔
      (getRailwayDetection parse env).detectedVars ≠ [] := by
  rw [isRailway_field_eq]
  simp [List.length_pos]

/-- Claim C6: the boolean-only detector `isRailway` returns exactly the same
boolean as the `isRailway` field of the exhaustive scanner
`getRailwayDetection`: the short-circuiting variant is observably equivalent
to the exhaustive scan. -/
theorem isRailway_eq_exhaustive_scan (parse : URLParser) (env : Env) :
    isRailway parse env = (getRailwayDetection parse env).isRailway := by
  rw [isRailway_field_eq, detectedVars_eq]
  unfold isRailway
  exact any_eq_decide_filter_length _ _

/-- Claim C7: `railwayHosts` contains no duplicate hostnames even when two or
more scanned variables resolve to the same hostname, and equals the
keep-first-occurrence de-duplication of the detected hostnames (hosts appear
in order of first occurrence). -/
theorem railwayHosts_nodup_firstOccurrence (parse : URLParser) (env : Env) :
    (getRailwayDetection parse env).railwayHosts.Nodup ∧
    (getRailwayDetection parse env).railwayHosts =
      dedupFirst (detectedHostnames parse env) := by
  refine ⟨?_, railwayHosts_eq parse env⟩
  rw [railwayHosts_eq]
  exact nodup_foldl_insertIfAbsent _ _ List.nodup_nil

/-- Claim C8: `detectedVars` is exactly the subsequence of the fixed
canonical variable-name list `RAILWAY_ENV_VARS` whose values pass the host
matcher, in the canonical list's order (i.e. the filter of that list). -/
theorem detectedVars_canonical_order (parse : URLParser) (env : Env) :
    (getRailwayDetection parse env).detectedVars =
      RAILWAY_ENV_VARS.filter fun v => isRailwayHost parse (env v) :=
  detectedVars_eq parse env

/-- Claim C9: `getRailwayConfig` is a pure projection of one
`getRailwayDetection` result: `isRailway` and `ssl.enabled` equal the
detection boolean, `ssl.rejectUnauthorized` and `ssl.validateCertificate` are
always false, `environment` is "railway" exactly when detection is true and
"local" otherwise, `detectedServices` equals `detectedVars`, and `hosts`
equals `railwayHosts`. -/
theorem getRailwayConfig_is_projection (parse : URLParser) (env : Env) :
    (getRailwayConfig parse env).isRailway = (getRailwayDetection parse env).isRailway
    ∧ (getRailwayConfig parse env).ssl.enabled = (getRailwayDetection parse env).isRailway
    ∧ (getRailwayConfig parse env).ssl.rejectUnauthorized = false
    ∧ (getRailwayConfig parse env).ssl.validateCertificate = false
    ∧ ((getRailwayConfig parse env).environment = "railway" ↔
        (getRailwayDetection parse env).isRailway = true)
    ∧ ((getRailwayConfig parse env).environment = "local" ↔
        (getRailwayDetection parse env).isRailway = false)
    ∧ (getRailwayConfig parse env).detectedServices = (getRailwayDetection parse env).detectedVars
    ∧ (getRailwayConfig parse env).hosts = (getRailwayDetection parse env).railwayHosts := by
  refine ⟨rfl, rfl, rfl, rfl, ?_, ?_, rfl, rfl⟩
  · unfold getRailwayConfig
    by_cases h : (getRailwayDetection parse env).isRailway <;> simp [h]
  · unfold getRailwayConfig
    by_cases h : (getRailwayDetection parse env).isRailway <;> simp [h]

/-- Claim C10: the hostname-extraction error branch in the scanner is
unreachable: a value accepted by the host matcher always re-parses
successfully, `railwayHosts` is empty iff `detectedVars` is empty, and every
detected variable contributes its hostname to `railwayHosts`. -/
theorem hostname_extraction_never_fails (parse : URLParser) (env : Env) :
    (∀ u, isRailwayHost parse (some u) = true → (parse u).isSome = true)
    ∧ ((getRailwayDetection parse env).railwayHosts = [] ↔
        (getRailwayDetection parse env).detectedVars = [])
    ∧ (∀ v, v ∈ (getRailwayDetection parse env).detectedVars →
        ∃ hostname, (env v).bind parse = some hostname ∧
          hostname ∈ (getRailwayDetection parse env).railwayHosts) := by
  refine ⟨?_, ?_, ?_⟩
  · intro u h
    obtain ⟨u', hn, he, hp⟩ := isRailwayHost_parse_some parse (some u) h
    obtain rfl : u = u' := Option.some.inj he
    rw [hp]
    rfl
  · rw [railwayHosts_eq, detectedVars_eq]
    unfold dedupFirst
    rw [foldl_insertIfAbsent_eq_nil]
    unfold detectedHostnames
    cases hfe : RAILWAY_ENV_VARS.filter (fun v => isRailwayHost parse (env v)) with
    | nil => simp
    | cons v rest =>
      have hv : isRailwayHost parse (env v) = true := by
        have hm : v ∈ RAILWAY_ENV_VARS.filter (fun v => isRailwayHost parse (env v)) := by
          rw [hfe]; exact List.mem_cons_self v rest
        exact (List.mem_filter.mp hm).2
      obtain ⟨u, hn, he, hp⟩ := isRailwayHost_parse_some parse (env v) hv
      have hb : (env v).bind parse = some hn := by rw [he]; simpa using hp
      simp [List.filterMap_cons, hb]
  · intro v hv
    rw [detectedVars_eq] at hv
    have hp := (List.mem_filter.mp hv).2
    obtain ⟨u, hn, he, hpu⟩ := isRailwayHost_parse_some parse (env v) hp
    have hb : (env v).bind parse = some hn := by rw [he]; simpa using hpu
    refine ⟨hn, hb, ?_⟩
    rw [railwayHosts_eq]
    unfold dedupFirst
    rw [mem_foldl_insertIfAbsent]
    right
    unfold detectedHostnames
    exact List.mem_filterMap.mpr ⟨v, hv, hb⟩

/-- Witness for C10: in the concrete fixture, the detected DATABASE_URL
contributes its hostname. -/
theorem hostname_extraction_never_fails_witness :
    ∃ hostname, (testEnv "DATABASE_URL").bind testParse = some hostname ∧
      hostname ∈ (getRailwayDetection testParse testEnv).railwayHosts :=
  (hostname_extraction_never_fails testParse testEnv).2.2 "DATABASE_URL" (by decide)

end IsRailway

namespace IsRailway

/-- Claim C1: for every non-empty connection string and every options value,
when platform detection over the current environment returns true,
`getPostgresConfig` returns a config whose `ssl.rejectUnauthorized` is false
regardless of the requested value, whose `modified` flag is true, and whose
`connectionString` equals the input unchanged (the sslmode-appending branch
never also applies in the same invocation). -/
theorem getPostgresConfig_railway_overrides (parse : URLParser) (env : Env)
    (cs : String) (opts : PostgresConfigOptions)
    (hcs : cs ≠ "") (hdet : isRailway parse env = true) :
    ∃ cfg logs, getPostgresConfig parse env (some cs) opts = .ok (cfg, logs)
      ∧ cfg.ssl.rejectUnauthorized = false
      ∧ cfg.modified = true
      ∧ cfg.connectionString = cs := by
  refine ⟨{ connectionString := cs,
            ssl := { rejectUnauthorized := false, ca := opts.ca },
            modified := true },
          if opts.rejectUnauthorized.getD false && opts.enableLogging.getD true then
            [LogEvent.warn "Railway detected: Overriding rejectUnauthorized=true to false for Railway compatibility"]
          else [],
          ?_, rfl, rfl, rfl⟩
  simp [getPostgresConfig, hcs, hdet]

/-- Witness for C1: Railway detected and rejectUnauthorized requested true. -/
theorem getPostgresConfig_railway_overrides_witness :
    ∃ cfg logs,
      getPostgresConfig testParse testEnv
          (some "postgres://user:pw@Pg.Railway.Internal:5432/app")
          { rejectUnauthorized := some true, ca := none,
            forceSSL := none, enableLogging := none } = .ok (cfg, logs)
        ∧ cfg.ssl.rejectUnauthorized = false
        ∧ cfg.modified = true
        ∧ cfg.connectionString = "postgres://user:pw@Pg.Railway.Internal:5432/app" :=
  getPostgresConfig_railway_overrides testParse testEnv
    "postgres://user:pw@Pg.Railway.Internal:5432/app"
    { rejectUnauthorized := some true, ca := none,
      forceSSL := none, enableLogging := none }
    (by decide) (by decide)

/-- Claim C3: for every non-empty connection string, when platform detection
returns false: if forceSSL is false and the string does not contain
"sslmode=", the result is the input with "sslmode=disable" appended via "?"
when the input contains no "?" and via "&" otherwise, and `modified` is true;
if the string already contains "sslmode=", it is returned unchanged with
`modified` false. -/
theorem getPostgresConfig_local_sslmode (parse : URLParser) (env : Env)
    (cs : String) (opts : PostgresConfigOptions)
    (hcs : cs ≠ "") (hdet : isRailway parse env = false) :
    (opts.forceSSL.getD false = false → JSStr.includes cs "sslmode=" = false →
      ∃ cfg logs, getPostgresConfig parse env (some cs) opts = .ok (cfg, logs)
        ∧ cfg.connectionString =
            cs ++ (if JSStr.includes cs "?" then "&" else "?") ++ "sslmode=disable"
        ∧ cfg.modified = true)
    ∧ (JSStr.includes cs "sslmode=" = true →
      ∃ cfg logs, getPostgresConfig parse env (some cs) opts = .ok (cfg, logs)
        ∧ cfg.connectionString = cs
        ∧ cfg.modified = false) := by
  constructor
  · intro hforce hno
    refine ⟨{ connectionString :=
                cs ++ (if JSStr.includes cs "?" then "&" else "?") ++ "sslmode=disable",
              ssl := { rejectUnauthorized := opts.rejectUnauthorized.getD false,
                       ca := opts.ca },
              modified := true },
            if opts.enableLogging.getD true then
              [LogEvent.info "Local environment detected: Added sslmode=disable for optimal PostgreSQL performance"]
            else [],
            ?_, rfl, rfl⟩
    simp [getPostgresConfig, hcs, hdet, hforce, hno]
  · intro hyes
    refine ⟨{ connectionString := cs,
              ssl := { rejectUnauthorized := opts.rejectUnauthorized.getD false,
                       ca := opts.ca },
              modified := false },
            [],
            ?_, rfl, rfl⟩
    simp [getPostgresConfig, hcs, hdet, hyes]

/-- Witness for C3: empty environment, plain local connection string gets
sslmode=disable appended through "?". -/
theorem getPostgresConfig_local_sslmode_witness :
    ∃ cfg logs,
      getPostgresConfig testParse emptyEnv (some "postgres://localhost:5432/db")
          { rejectUnauthorized := none, ca := none,
            forceSSL := none, enableLogging := none } = .ok (cfg, logs)
        ∧ cfg.connectionString =
            "postgres://localhost:5432/db" ++
              (if JSStr.includes "postgres://localhost:5432/db" "?" then "&" else "?") ++
              "sslmode=disable"
        ∧ cfg.modified = true :=
  (getPostgresConfig_local_sslmode testParse emptyEnv "postgres://localhost:5432/db"
    { rejectUnauthorized := none, ca := none, forceSSL := none, enableLogging := none }
    (by decide) (by decide)).1 (by decide) (by decide)

/-- Claim C4: for every options value and every environment,
`getPostgresConfig` fails with the InvalidArgument error when its connection
string is absent or empty; the error result carries no config and no log
events, and is the same for every environment and parser (no detection, no
config construction, no logging happens first). -/
theorem getPostgresConfig_requires_connectionString (parse : URLParser) (env : Env)
    (opts : PostgresConfigOptions) :
    getPostgresConfig parse env none opts =
        .error (.invalidArgument "Connection string is required")
    ∧ getPostgresConfig parse env (some "") opts =
        .error (.invalidArgument "Connection string is required") :=
  ⟨rfl, rfl⟩

end IsRailway
